import Mathlib

/-!
# Verification of the swe-hackers teaching scripts

Shallow embedding of the retry / circuit-breaker / payment examples under
`src/bparker/code` and of the calculator and async-flow-debugger scripts,
with theorems settling the frozen claims about them.

Conventions:
* Python `float` values used only for arithmetic and comparison (delays,
  timestamps, monetary `Decimal` amounts) are modelled as `ℚ`.
* Side-effecting repository mutations are modelled by explicit state passing.
* Calls to `random.random()` and `time.time()` are modelled as oracle
  arguments (streams of values supplied to the embedded function).
-/

namespace SweHackers

/-! ## Circuit breaker (resilient_api_client.py and payment_handlers.py)

Both files define a `CircuitBreaker` dataclass with the same fields and the
same `_on_success` / `_on_failure` logic; they differ in the `state` property
(the payment_handlers variant tests `self._last_failure_time` for Python
truthiness, so a timestamp of `0.0` is treated like `None`) and in `call`
(only the resilient_api_client variant rejects half-open calls beyond
`half_open_max_calls`).  Logging and metrics calls are omitted: they do not
affect the breaker state. -/

/-- `CircuitState` enum (identical in both files). -/
inductive CircuitState where
  | CLOSED
  | OPEN
  | HALF_OPEN
deriving DecidableEq, Repr

/-- The `CircuitBreaker` dataclass: configuration fields plus internal state.
The `name` field of the payment_handlers variant is omitted (only logged). -/
structure CircuitBreaker where
  failure_threshold : Nat
  recovery_timeout : ℚ
  half_open_max_calls : Nat
  _failures : Nat
  _state : CircuitState
  _last_failure_time : Option ℚ
  _half_open_calls : Nat
deriving DecidableEq, Repr

/-- A freshly constructed breaker: `_failures = 0`, `_state = CLOSED`,
`_last_failure_time = None`, `_half_open_calls = 0`. -/
def CircuitBreaker.init (ft : Nat) (rt : ℚ) (hm : Nat) : CircuitBreaker :=
  ⟨ft, rt, hm, 0, .CLOSED, none, 0⟩

/-- The `state` property of resilient_api_client.py: while OPEN, if
`_last_failure_time is not None` and at least `recovery_timeout` seconds
have elapsed, move to HALF_OPEN and reset `_half_open_calls`. -/
def CircuitBreaker.checkRecoveryR (cb : CircuitBreaker) (now : ℚ) : CircuitBreaker :=
  if cb._state = .OPEN then
    match cb._last_failure_time with
    | some t =>
        if cb.recovery_timeout ≤ now - t then
          { cb with _state := .HALF_OPEN, _half_open_calls := 0 }
        else cb
    | none => cb
  else cb

/-- The `state` property of payment_handlers.py: the guard is
`self._state == OPEN and self._last_failure_time`, i.e. a recorded failure
time of `0.0` is falsy and blocks recovery. -/
def CircuitBreaker.checkRecoveryH (cb : CircuitBreaker) (now : ℚ) : CircuitBreaker :=
  if cb._state = .OPEN then
    match cb._last_failure_time with
    | some t =>
        if t ≠ 0 ∧ cb.recovery_timeout ≤ now - t then
          { cb with _state := .HALF_OPEN, _half_open_calls := 0 }
        else cb
    | none => cb
  else cb

/-- `_on_success` (identical in both files): reset the failure counter,
close the circuit, clear the half-open call counter. -/
def CircuitBreaker.onSuccess (cb : CircuitBreaker) : CircuitBreaker :=
  { cb with _failures := 0, _state := .CLOSED, _half_open_calls := 0 }

/-- `_on_failure` (identical in both files): increment `_failures`, record
the failure time, and open the circuit once `_failures >= failure_threshold`. -/
def CircuitBreaker.onFailure (cb : CircuitBreaker) (now : ℚ) : CircuitBreaker :=
  let cb' := { cb with _failures := cb._failures + 1, _last_failure_time := some now }
  if cb'.failure_threshold ≤ cb'._failures then
    { cb' with _state := .OPEN }
  else cb'

/-- Outcome of the wrapped function when the breaker lets the call through. -/
inductive CallOutcome where
  | ok
  | fail
deriving DecidableEq, Repr

/-- Body of `CircuitBreaker.call` in resilient_api_client.py after
`current_state = self.state`: reject when OPEN; reject when HALF_OPEN with
`_half_open_calls >= half_open_max_calls`; otherwise count the half-open
call, run the function and dispatch to `_on_success` / `_on_failure`
(a rejection raises `CircuitOpenError` and leaves the state unchanged). -/
def CircuitBreaker.callBodyR (cb : CircuitBreaker) (now : ℚ) (oc : CallOutcome) :
    CircuitBreaker :=
  if cb._state = .OPEN then cb
  else if cb._state = .HALF_OPEN ∧ cb.half_open_max_calls ≤ cb._half_open_calls then cb
  else
    let cb' := if cb._state = .HALF_OPEN then
        { cb with _half_open_calls := cb._half_open_calls + 1 }
      else cb
    match oc with
    | .ok => cb'.onSuccess
    | .fail => cb'.onFailure now

/-- Body of `CircuitBreaker.call` in payment_handlers.py: same as the
resilient_api_client variant but with no cap on half-open test calls. -/
def CircuitBreaker.callBodyH (cb : CircuitBreaker) (now : ℚ) (oc : CallOutcome) :
    CircuitBreaker :=
  if cb._state = .OPEN then cb
  else
    let cb' := if cb._state = .HALF_OPEN then
        { cb with _half_open_calls := cb._half_open_calls + 1 }
      else cb
    match oc with
    | .ok => cb'.onSuccess
    | .fail => cb'.onFailure now

/-- `CircuitBreaker.call` in resilient_api_client.py. -/
def CircuitBreaker.callR (cb : CircuitBreaker) (now : ℚ) (oc : CallOutcome) :
    CircuitBreaker :=
  (cb.checkRecoveryR now).callBodyR now oc

/-- `CircuitBreaker.call` in payment_handlers.py. -/
def CircuitBreaker.callH (cb : CircuitBreaker) (now : ℚ) (oc : CallOutcome) :
    CircuitBreaker :=
  (cb.checkRecoveryH now).callBodyH now oc

/-- Run a fresh resilient_api_client breaker over a sequence of timed call
outcomes. -/
def CircuitBreaker.runR (ft : Nat) (rt : ℚ) (hm : Nat)
    (es : List (ℚ × CallOutcome)) : CircuitBreaker :=
  es.foldl (fun cb e => cb.callR e.1 e.2) (CircuitBreaker.init ft rt hm)

/-- Run a fresh payment_handlers breaker over a sequence of timed call
outcomes. -/
def CircuitBreaker.runH (ft : Nat) (rt : ℚ) (hm : Nat)
    (es : List (ℚ × CallOutcome)) : CircuitBreaker :=
  es.foldl (fun cb e => cb.callH e.1 e.2) (CircuitBreaker.init ft rt hm)

/-- The claimed invariant: whenever the circuit is OPEN the failure counter
is at least `failure_threshold`. -/
def CircuitBreaker.OpenInv (cb : CircuitBreaker) : Prop :=
  cb._state = .OPEN → cb.failure_threshold ≤ cb._failures

/-- Strengthened inductive invariant: the counter is at or above the
threshold in both OPEN and HALF_OPEN (HALF_OPEN is only entered from OPEN
and the counter is not reset by that transition). -/
def CircuitBreaker.StrongInv (cb : CircuitBreaker) : Prop :=
  (cb._state = .OPEN ∨ cb._state = .HALF_OPEN) →
    cb.failure_threshold ≤ cb._failures

/-- Shape of a recovery check: either nothing changes, or the breaker was
OPEN and moves to HALF_OPEN because at least `recovery_timeout` seconds have
elapsed since the recorded last failure (which is left untouched, as is the
failure counter). -/
def CircuitBreaker.RecoveryTrans (cb cb' : CircuitBreaker) (now : ℚ) : Prop :=
  cb' = cb ∨
    (cb._state = .OPEN ∧ cb'._state = .HALF_OPEN ∧
      cb'._failures = cb._failures ∧
      ∃ t, cb._last_failure_time = some t ∧ cb.recovery_timeout ≤ now - t)

/-- Shape of a call executed after the recovery check, matching the claimed
transition system: from CLOSED a call either stays CLOSED or opens the
circuit on a failure that brings the counter to `failure_threshold`; an OPEN
breaker rejects the call unchanged; from HALF_OPEN a successful call closes
the circuit and zeroes the counter, a failed call opens it, and a rejected
call leaves it half-open. -/
def CircuitBreaker.CallTrans (cb cb' : CircuitBreaker) (oc : CallOutcome) : Prop :=
  (cb._state = .CLOSED →
     cb'._state = .CLOSED ∨
       (cb'._state = .OPEN ∧ oc = .fail ∧
         cb'._failures = cb._failures + 1 ∧
         cb.failure_threshold ≤ cb'._failures)) ∧
  (cb._state = .OPEN → cb' = cb) ∧
  (cb._state = .HALF_OPEN →
     (oc = .ok ∧ cb'._state = .CLOSED ∧ cb'._failures = 0) ∨
       (oc = .fail ∧ cb'._state = .OPEN) ∨
       (cb' = cb ∧ cb'._state = .HALF_OPEN))

theorem CircuitBreaker.checkRecoveryR_strongInv (cb : CircuitBreaker) (now : ℚ)
    (h : cb.StrongInv) : (cb.checkRecoveryR now).StrongInv := by
  unfold CircuitBreaker.checkRecoveryR
  cases hl : cb._last_failure_time <;>
    simp only [hl] <;> split_ifs <;>
    simp_all [CircuitBreaker.StrongInv]

theorem CircuitBreaker.checkRecoveryH_strongInv (cb : CircuitBreaker) (now : ℚ)
    (h : cb.StrongInv) : (cb.checkRecoveryH now).StrongInv := by
  unfold CircuitBreaker.checkRecoveryH
  cases hl : cb._last_failure_time <;>
    simp only [hl] <;> split_ifs <;>
    simp_all [CircuitBreaker.StrongInv]

theorem CircuitBreaker.callBodyR_strongInv (cb : CircuitBreaker) (now : ℚ)
    (oc : CallOutcome) (h : cb.StrongInv) : (cb.callBodyR now oc).StrongInv := by
  rcases cb with ⟨ft, rt, hm, f, st, lt, hc⟩
  cases st <;> cases oc <;>
    simp_all [CircuitBreaker.callBodyR, CircuitBreaker.onSuccess,
      CircuitBreaker.onFailure, CircuitBreaker.StrongInv] <;>
    split_ifs <;> simp_all <;> omega

theorem CircuitBreaker.callBodyH_strongInv (cb : CircuitBreaker) (now : ℚ)
    (oc : CallOutcome) (h : cb.StrongInv) : (cb.callBodyH now oc).StrongInv := by
  rcases cb with ⟨ft, rt, hm, f, st, lt, hc⟩
  cases st <;> cases oc <;>
    simp_all [CircuitBreaker.callBodyH, CircuitBreaker.onSuccess,
      CircuitBreaker.onFailure, CircuitBreaker.StrongInv] <;>
    split_ifs <;> simp_all <;> omega

theorem CircuitBreaker.callR_strongInv (cb : CircuitBreaker) (now : ℚ)
    (oc : CallOutcome) (h : cb.StrongInv) : (cb.callR now oc).StrongInv :=
  (cb.checkRecoveryR now).callBodyR_strongInv now oc
    (cb.checkRecoveryR_strongInv now h)

theorem CircuitBreaker.callH_strongInv (cb : CircuitBreaker) (now : ℚ)
    (oc : CallOutcome) (h : cb.StrongInv) : (cb.callH now oc).StrongInv :=
  (cb.checkRecoveryH now).callBodyH_strongInv now oc
    (cb.checkRecoveryH_strongInv now h)

theorem CircuitBreaker.foldl_strongInv (es : List (ℚ × CallOutcome)) :
    ∀ cb : CircuitBreaker, cb.StrongInv →
      (es.foldl (fun cb e => cb.callR e.1 e.2) cb).StrongInv ∧
      (es.foldl (fun cb e => cb.callH e.1 e.2) cb).StrongInv := by
  induction es with
  | nil => exact fun cb h => ⟨h, h⟩
  | cons e es ih =>
      intro cb h
      exact ⟨(ih _ (cb.callR_strongInv e.1 e.2 h)).1,
             (ih _ (cb.callH_strongInv e.1 e.2 h)).2⟩

theorem CircuitBreaker.init_strongInv (ft : Nat) (rt : ℚ) (hm : Nat) :
    (CircuitBreaker.init ft rt hm).StrongInv := by
  simp [CircuitBreaker.init, CircuitBreaker.StrongInv]

theorem CircuitBreaker.checkRecoveryR_trans (cb : CircuitBreaker) (now : ℚ) :
    cb.RecoveryTrans (cb.checkRecoveryR now) now := by
  unfold CircuitBreaker.checkRecoveryR CircuitBreaker.RecoveryTrans
  cases hl : cb._last_failure_time <;>
    simp only [hl] <;> split_ifs <;> simp_all

theorem CircuitBreaker.checkRecoveryH_trans (cb : CircuitBreaker) (now : ℚ) :
    cb.RecoveryTrans (cb.checkRecoveryH now) now := by
  unfold CircuitBreaker.checkRecoveryH CircuitBreaker.RecoveryTrans
  cases hl : cb._last_failure_time <;>
    simp only [hl] <;> split_ifs <;> simp_all

theorem CircuitBreaker.callBodyR_trans (cb : CircuitBreaker) (now : ℚ)
    (oc : CallOutcome) (h : cb.StrongInv) :
    cb.CallTrans (cb.callBodyR now oc) oc := by
  rcases cb with ⟨ft, rt, hm, f, st, lt, hc⟩
  cases st <;> cases oc <;>
    simp_all [CircuitBreaker.callBodyR, CircuitBreaker.onSuccess,
      CircuitBreaker.onFailure, CircuitBreaker.StrongInv,
      CircuitBreaker.CallTrans] <;>
    split_ifs <;> simp_all <;> omega

theorem CircuitBreaker.callBodyH_trans (cb : CircuitBreaker) (now : ℚ)
    (oc : CallOutcome) (h : cb.StrongInv) :
    cb.CallTrans (cb.callBodyH now oc) oc := by
  rcases cb with ⟨ft, rt, hm, f, st, lt, hc⟩
  cases st <;> cases oc <;>
    simp_all [CircuitBreaker.callBodyH, CircuitBreaker.onSuccess,
      CircuitBreaker.onFailure, CircuitBreaker.StrongInv,
      CircuitBreaker.CallTrans] <;>
    split_ifs <;> simp_all <;> omega

/-- C1: for both `CircuitBreaker` implementations
(resilient_api_client.py and payment_handlers.py), every sequence of call
outcomes from a fresh breaker ends in a state where OPEN implies the failure
counter is at least `failure_threshold`; the `state` property only ever
transitions OPEN → HALF_OPEN and only when at least `recovery_timeout`
seconds have elapsed since the last recorded failure; and a call transitions
CLOSED → OPEN exactly on a failure that brings the counter to the threshold,
HALF_OPEN → CLOSED on a successful call (resetting the counter to 0), and
HALF_OPEN → OPEN on a failed call, with OPEN rejecting calls unchanged. -/
theorem c1_circuit_breaker_state_machine :
    (∀ (ft : Nat) (rt : ℚ) (hm : Nat) (es : List (ℚ × CallOutcome)),
       (CircuitBreaker.runR ft rt hm es).OpenInv ∧
       (CircuitBreaker.runH ft rt hm es).OpenInv) ∧
    (∀ (cb : CircuitBreaker) (now : ℚ),
       cb.RecoveryTrans (cb.checkRecoveryR now) now ∧
       cb.RecoveryTrans (cb.checkRecoveryH now) now) ∧
    (∀ (cb : CircuitBreaker) (now : ℚ) (oc : CallOutcome), cb.StrongInv →
       cb.CallTrans (cb.callBodyR now oc) oc ∧
       cb.CallTrans (cb.callBodyH now oc) oc) := by
  refine ⟨fun ft rt hm es => ?_, fun cb now =>
      ⟨cb.checkRecoveryR_trans now, cb.checkRecoveryH_trans now⟩,
    fun cb now oc h =>
      ⟨cb.callBodyR_trans now oc h, cb.callBodyH_trans now oc h⟩⟩
  have h := CircuitBreaker.foldl_strongInv es (CircuitBreaker.init ft rt hm)
    (CircuitBreaker.init_strongInv ft rt hm)
  exact ⟨fun hs => h.1 (Or.inl hs), fun hs => h.2 (Or.inl hs)⟩

/-- Witness for C1 at a concrete breaker and trace. -/
theorem c1_circuit_breaker_state_machine_witness :
    (CircuitBreaker.runR 2 10 3 [(0, .fail), (1, .fail), (12, .ok)]).OpenInv ∧
    CircuitBreaker.CallTrans (CircuitBreaker.init 2 10 3)
      ((CircuitBreaker.init 2 10 3).callBodyR 0 .fail) .fail :=
  ⟨(c1_circuit_breaker_state_machine.1 2 10 3 [(0, .fail), (1, .fail), (12, .ok)]).1,
   (c1_circuit_breaker_state_machine.2.2 (CircuitBreaker.init 2 10 3) 0 .fail
      (CircuitBreaker.init_strongInv 2 10 3)).1⟩

/-! ## Retry with exponential backoff

Three near-duplicate `retry_with_backoff` decorators exist, in
resilient_api_client.py, payment_handlers.py and payment_service.py.  The
wrapped function's behaviour on each invocation is modelled by an oracle
`oc : Nat → AttemptResult α`; exceptions are identified by a numeric id so
that "raises the same exception" and "chained from the last exception" are
expressible.  `random.random()` draws are the oracle `rnd : Nat → ℚ`.
The sleeps are recorded in chronological order in the returned trace. -/

/-- Result of one invocation of the wrapped function: normal return, an
exception matched by `retryable_exceptions` (with a flag telling whether it
is a `StripeRateLimitError` carrying a `retry_after` value, which only the
payment_service.py variant treats specially), or any other exception. -/
inductive AttemptResult (α : Type) where
  | ok (v : α)
  | raiseRetryable (id : Nat) (isRateLimit : Bool) (retryAfter : ℚ)
  | raiseOther (id : Nat)
deriving DecidableEq, Repr

/-- What the wrapper does after its last invocation: return the value,
raise `MaxRetriesExceededError` chained from the exception `lastId`,
let a non-retryable exception `id` propagate, or re-raise the last
retryable exception itself (payment_service.py's exhaustion behaviour). -/
inductive RetryOutcome (α : Type) where
  | success (v : α)
  | maxRetriesExceeded (lastId : Nat)
  | propagated (id : Nat)
  | reraisedLast (id : Nat) (isRateLimit : Bool) (retryAfter : ℚ)
deriving DecidableEq, Repr

/-- Observable behaviour of one run of a retry wrapper: how many times the
wrapped function was invoked, the `time.sleep` delays in order, and how the
wrapper finished. -/
structure RetryTrace (α : Type) where
  invocations : Nat
  delays : List ℚ
  outcome : RetryOutcome α
deriving DecidableEq, Repr

/-- Loop body of resilient_api_client.py's `retry_with_backoff` wrapper
(`for attempt in range(max_retries + 1)`), recursing on the remaining fuel
(`fuel + attempt = max_retries + 1` at every call from the entry point).
`li` threads `last_exception` for the unreachable fall-through
`raise MaxRetriesExceededError(f"Unexpected retry failure: ...")` after the
loop.  The delay before a retry is
`min(base_delay * exponential_base ** attempt, max_delay)`, multiplied by
`0.75 + random.random() * 0.5` when `jitter` is enabled. -/
def resilientGo {α : Type} (max_retries : Nat) (base_delay exponential_base max_delay : ℚ)
    (jitter : Bool) (rnd : Nat → ℚ) (oc : Nat → AttemptResult α) :
    Nat → Nat → Nat → RetryTrace α
  | 0, attempt, li => ⟨attempt, [], .maxRetriesExceeded li⟩
  | fuel + 1, attempt, li =>
    match oc attempt with
    | .ok v => ⟨attempt + 1, [], .success v⟩
    | .raiseOther i => ⟨attempt + 1, [], .propagated i⟩
    | .raiseRetryable i _ _ =>
      if attempt = max_retries then ⟨attempt + 1, [], .maxRetriesExceeded i⟩
      else
        let d := min (base_delay * exponential_base ^ attempt) max_delay
        let d := if jitter then d * (0.75 + rnd attempt * 0.5) else d
        let t := resilientGo max_retries base_delay exponential_base max_delay
          jitter rnd oc fuel (attempt + 1) i
        ⟨t.invocations, d :: t.delays, t.outcome⟩

/-- The wrapper produced by resilient_api_client.py's
`retry_with_backoff(max_retries, base_delay, max_delay, exponential_base,
jitter, ...)` applied to a function whose invocations behave as `oc`. -/
def resilientRetry {α : Type} (max_retries : Nat)
    (base_delay exponential_base max_delay : ℚ) (jitter : Bool)
    (rnd : Nat → ℚ) (oc : Nat → AttemptResult α) : RetryTrace α :=
  resilientGo max_retries base_delay exponential_base max_delay jitter rnd oc
    (max_retries + 1) 0 0

/-- Loop body of payment_handlers.py's `retry_with_backoff` wrapper; the
source logic is the same as resilient_api_client.py's up to logging and
metrics (which do not affect the trace). -/
def handlersGo {α : Type} (max_retries : Nat) (base_delay exponential_base max_delay : ℚ)
    (jitter : Bool) (rnd : Nat → ℚ) (oc : Nat → AttemptResult α) :
    Nat → Nat → Nat → RetryTrace α
  | 0, attempt, li => ⟨attempt, [], .maxRetriesExceeded li⟩
  | fuel + 1, attempt, li =>
    match oc attempt with
    | .ok v => ⟨attempt + 1, [], .success v⟩
    | .raiseOther i => ⟨attempt + 1, [], .propagated i⟩
    | .raiseRetryable i _ _ =>
      if attempt = max_retries then ⟨attempt + 1, [], .maxRetriesExceeded i⟩
      else
        let d := min (base_delay * exponential_base ^ attempt) max_delay
        let d := if jitter then d * (0.75 + rnd attempt * 0.5) else d
        let t := handlersGo max_retries base_delay exponential_base max_delay
          jitter rnd oc fuel (attempt + 1) i
        ⟨t.invocations, d :: t.delays, t.outcome⟩

/-- The wrapper produced by payment_handlers.py's `retry_with_backoff`. -/
def handlersRetry {α : Type} (max_retries : Nat)
    (base_delay exponential_base max_delay : ℚ) (jitter : Bool)
    (rnd : Nat → ℚ) (oc : Nat → AttemptResult α) : RetryTrace α :=
  handlersGo max_retries base_delay exponential_base max_delay jitter rnd oc
    (max_retries + 1) 0 0

/-- Loop body of payment_service.py's `retry_with_backoff` wrapper.  It has
no jitter; a `StripeRateLimitError` sleeps `min(e.retry_after, max_delay)`
instead of the exponential delay; exhaustion re-raises the caught exception
(`raise` after logging, and `raise last_exception` after the loop) rather
than wrapping it in `MaxRetriesExceededError`.  A non-retryable exception is
not caught and propagates.  `(lid, lrl, lra)` thread `last_exception`. -/
def paymentGo {α : Type} (max_retries : Nat) (base_delay exponential_base max_delay : ℚ)
    (oc : Nat → AttemptResult α) :
    Nat → Nat → Nat → Bool → ℚ → RetryTrace α
  | 0, attempt, lid, lrl, lra => ⟨attempt, [], .reraisedLast lid lrl lra⟩
  | fuel + 1, attempt, lid, lrl, lra =>
    match oc attempt with
    | .ok v => ⟨attempt + 1, [], .success v⟩
    | .raiseOther i => ⟨attempt + 1, [], .propagated i⟩
    | .raiseRetryable i rl ra =>
      if attempt = max_retries then ⟨attempt + 1, [], .reraisedLast i rl ra⟩
      else
        let d := if rl then min ra max_delay
          else min (base_delay * exponential_base ^ attempt) max_delay
        let t := paymentGo max_retries base_delay exponential_base max_delay
          oc fuel (attempt + 1) i rl ra
        ⟨t.invocations, d :: t.delays, t.outcome⟩

/-- The wrapper produced by payment_service.py's `retry_with_backoff`. -/
def paymentRetry {α : Type} (max_retries : Nat)
    (base_delay exponential_base max_delay : ℚ)
    (oc : Nat → AttemptResult α) : RetryTrace α :=
  paymentGo max_retries base_delay exponential_base max_delay oc
    (max_retries + 1) 0 0 false 0

/-- The delay slept by resilient_api_client.py / payment_handlers.py after
the failed attempt number `k` (0-based). -/
def resilientDelay (base_delay exponential_base max_delay : ℚ) (jitter : Bool)
    (rnd : Nat → ℚ) (k : Nat) : ℚ :=
  let d := min (base_delay * exponential_base ^ k) max_delay
  if jitter then d * (0.75 + rnd k * 0.5) else d

/-- The delay slept by payment_service.py after the failed attempt number
`k`: `min(e.retry_after, max_delay)` for a `StripeRateLimitError`, the
capped exponential delay otherwise. -/
def paymentDelay {α : Type} (base_delay exponential_base max_delay : ℚ)
    (oc : Nat → AttemptResult α) (k : Nat) : ℚ :=
  match oc k with
  | .raiseRetryable _ true ra => min ra max_delay
  | _ => min (base_delay * exponential_base ^ k) max_delay

theorem resilientGo_spec {α : Type} (mr : Nat) (bd eb md : ℚ) (jit : Bool)
    (rnd : Nat → ℚ) (oc : Nat → AttemptResult α) :
    ∀ (fuel attempt li : Nat), attempt + fuel = mr + 1 →
      attempt ≤ (resilientGo mr bd eb md jit rnd oc fuel attempt li).invocations ∧
      (resilientGo mr bd eb md jit rnd oc fuel attempt li).invocations ≤ mr + 1 ∧
      (1 ≤ fuel →
        attempt + 1 ≤ (resilientGo mr bd eb md jit rnd oc fuel attempt li).invocations) ∧
      (resilientGo mr bd eb md jit rnd oc fuel attempt li).delays =
        (List.range' attempt
            ((resilientGo mr bd eb md jit rnd oc fuel attempt li).invocations - 1 - attempt)).map
          (resilientDelay bd eb md jit rnd) := by
  intro fuel
  induction fuel with
  | zero =>
    intro attempt li h
    have h0 : attempt - 1 - attempt = 0 := by omega
    simp [resilientGo, h0]
    omega
  | succ fuel ih =>
    intro attempt li h
    cases hoc : oc attempt with
    | ok v =>
      have h0 : attempt + 1 - 1 - attempt = 0 := by omega
      simp [resilientGo, hoc, h0]
      omega
    | raiseOther i =>
      have h0 : attempt + 1 - 1 - attempt = 0 := by omega
      simp [resilientGo, hoc, h0]
      omega
    | raiseRetryable i rl ra =>
      by_cases ha : attempt = mr
      · simp only [resilientGo, hoc, if_pos ha]
        refine ⟨by omega, by omega, fun _ => by omega, ?_⟩
        have h0 : attempt + 1 - 1 - attempt = 0 := by omega
        simp [h0]
      · have hsync : (attempt + 1) + fuel = mr + 1 := by omega
        have hfuel : 1 ≤ fuel := by omega
        obtain ⟨h1, h2, h3, h4⟩ := ih (attempt + 1) i hsync
        have h5 := h3 hfuel
        simp only [resilientGo, hoc, if_neg ha]
        refine ⟨by omega, by omega, fun _ => by omega, ?_⟩
        have hn : (resilientGo mr bd eb md jit rnd oc fuel (attempt + 1) i).invocations
              - 1 - attempt
            = ((resilientGo mr bd eb md jit rnd oc fuel (attempt + 1) i).invocations
              - 1 - (attempt + 1)) + 1 := by omega
        simp only [hn, List.range'_succ, List.map_cons]
        exact congrArg₂ _ (by simp [resilientDelay]) h4

theorem paymentGo_spec {α : Type} (mr : Nat) (bd eb md : ℚ)
    (oc : Nat → AttemptResult α) :
    ∀ (fuel attempt lid : Nat) (lrl : Bool) (lra : ℚ), attempt + fuel = mr + 1 →
      attempt ≤ (paymentGo mr bd eb md oc fuel attempt lid lrl lra).invocations ∧
      (paymentGo mr bd eb md oc fuel attempt lid lrl lra).invocations ≤ mr + 1 ∧
      (1 ≤ fuel →
        attempt + 1 ≤ (paymentGo mr bd eb md oc fuel attempt lid lrl lra).invocations) ∧
      (paymentGo mr bd eb md oc fuel attempt lid lrl lra).delays =
        (List.range' attempt
            ((paymentGo mr bd eb md oc fuel attempt lid lrl lra).invocations - 1 - attempt)).map
          (paymentDelay bd eb md oc) := by
  intro fuel
  induction fuel with
  | zero =>
    intro attempt lid lrl lra h
    have h0 : attempt - 1 - attempt = 0 := by omega
    simp [paymentGo, h0]
    omega
  | succ fuel ih =>
    intro attempt lid lrl lra h
    cases hoc : oc attempt with
    | ok v =>
      have h0 : attempt + 1 - 1 - attempt = 0 := by omega
      simp [paymentGo, hoc, h0]
      omega
    | raiseOther i =>
      have h0 : attempt + 1 - 1 - attempt = 0 := by omega
      simp [paymentGo, hoc, h0]
      omega
    | raiseRetryable i rl ra =>
      by_cases ha : attempt = mr
      · simp only [paymentGo, hoc, if_pos ha]
        refine ⟨by omega, by omega, fun _ => by omega, ?_⟩
        have h0 : attempt + 1 - 1 - attempt = 0 := by omega
        simp [h0]
      · have hsync : (attempt + 1) + fuel = mr + 1 := by omega
        have hfuel : 1 ≤ fuel := by omega
        obtain ⟨h1, h2, h3, h4⟩ := ih (attempt + 1) i rl ra hsync
        have h5 := h3 hfuel
        simp only [paymentGo, hoc, if_neg ha]
        refine ⟨by omega, by omega, fun _ => by omega, ?_⟩
        have hn : (paymentGo mr bd eb md oc fuel (attempt + 1) i rl ra).invocations
              - 1 - attempt
            = ((paymentGo mr bd eb md oc fuel (attempt + 1) i rl ra).invocations
              - 1 - (attempt + 1)) + 1 := by omega
        simp only [hn, List.range'_succ, List.map_cons]
        refine congrArg₂ _ ?_ h4
        simp only [paymentDelay, hoc]
        cases rl <;> simp

theorem handlersGo_eq_resilientGo {α : Type} (mr : Nat) (bd eb md : ℚ)
    (jit : Bool) (rnd : Nat → ℚ) (oc : Nat → AttemptResult α) :
    ∀ (fuel attempt li : Nat),
      handlersGo mr bd eb md jit rnd oc fuel attempt li =
        resilientGo mr bd eb md jit rnd oc fuel attempt li := by
  intro fuel
  induction fuel with
  | zero => intro attempt li; rfl
  | succ fuel ih =>
    intro attempt li
    simp only [handlersGo, resilientGo]
    cases hoc : oc attempt with
    | ok v => rfl
    | raiseOther i => rfl
    | raiseRetryable i rl ra =>
      by_cases ha : attempt = mr <;> simp [ha, ih]

theorem paymentGo_invocations_eq {α : Type} (mr : Nat) (bd eb md : ℚ)
    (jit : Bool) (rnd : Nat → ℚ) (oc : Nat → AttemptResult α) :
    ∀ (fuel attempt lid : Nat) (lrl : Bool) (lra : ℚ) (li : Nat),
      (paymentGo mr bd eb md oc fuel attempt lid lrl lra).invocations =
        (resilientGo mr bd eb md jit rnd oc fuel attempt li).invocations := by
  intro fuel
  induction fuel with
  | zero => intro attempt lid lrl lra li; rfl
  | succ fuel ih =>
    intro attempt lid lrl lra li
    simp only [paymentGo, resilientGo]
    cases hoc : oc attempt with
    | ok v => rfl
    | raiseOther i => rfl
    | raiseRetryable i rl ra =>
      by_cases ha : attempt = mr
      · simp [ha]
      · simp only [if_neg ha]
        exact ih (attempt + 1) i rl ra i

theorem resilientGo_exhaust {α : Type} (mr : Nat) (bd eb md : ℚ) (jit : Bool)
    (rnd : Nat → ℚ) (oc : Nat → AttemptResult α) :
    ∀ (fuel attempt li : Nat), attempt + fuel = mr + 1 → attempt ≤ mr →
      (∀ k, attempt ≤ k → k ≤ mr → ∃ i rl ra, oc k = .raiseRetryable i rl ra) →
      ∃ i rl ra, oc mr = .raiseRetryable i rl ra ∧
        (resilientGo mr bd eb md jit rnd oc fuel attempt li).outcome =
          .maxRetriesExceeded i ∧
        (resilientGo mr bd eb md jit rnd oc fuel attempt li).invocations = mr + 1 := by
  intro fuel
  induction fuel with
  | zero => intro attempt li h hle _; omega
  | succ fuel ih =>
    intro attempt li h hle hoc
    obtain ⟨i, rl, ra, hi⟩ := hoc attempt le_rfl hle
    by_cases ha : attempt = mr
    · subst ha
      exact ⟨i, rl, ra, hi, by simp [resilientGo, hi], by simp [resilientGo, hi]⟩
    · have hsync : (attempt + 1) + fuel = mr + 1 := by omega
      obtain ⟨i', rl', ra', hi', hout, hinv⟩ := ih (attempt + 1) i hsync (by omega)
        (fun k hk1 hk2 => hoc k (by omega) hk2)
      refine ⟨i', rl', ra', hi', ?_, ?_⟩ <;>
        simp [resilientGo, hi, if_neg ha, hout, hinv]

theorem resilientGo_propagate {α : Type} (mr : Nat) (bd eb md : ℚ) (jit : Bool)
    (rnd : Nat → ℚ) (oc : Nat → AttemptResult α) :
    ∀ (fuel attempt li j i : Nat), attempt + fuel = mr + 1 →
      attempt ≤ j → j ≤ mr →
      (∀ k, attempt ≤ k → k < j → ∃ i' rl ra, oc k = .raiseRetryable i' rl ra) →
      oc j = .raiseOther i →
      (resilientGo mr bd eb md jit rnd oc fuel attempt li).outcome = .propagated i ∧
      (resilientGo mr bd eb md jit rnd oc fuel attempt li).invocations = j + 1 := by
  intro fuel
  induction fuel with
  | zero => intro attempt li j i h hle hj _ _; omega
  | succ fuel ih =>
    intro attempt li j i h hle hj hpre hj2
    by_cases ha : attempt = j
    · subst ha
      constructor <;> simp [resilientGo, hj2]
    · obtain ⟨i', rl', ra', hi'⟩ := hpre attempt le_rfl (by omega)
      have hamr : attempt ≠ mr := by omega
      have hsync : (attempt + 1) + fuel = mr + 1 := by omega
      obtain ⟨hout, hinv⟩ := ih (attempt + 1) i' j i hsync (by omega) hj
        (fun k hk1 hk2 => hpre k (by omega) hk2) hj2
      constructor <;>
        simp [resilientGo, hi', if_neg hamr, hout, hinv]

/-- C2 as stated is false for the payment_service.py implementation: with
`max_retries = 1`, `base_delay = 1`, `exponential_base = 2`,
`max_delay = 30` and every invocation raising `StripeRateLimitError` with
`retry_after = 30`, the delay slept before the first retry is `30`, not
`min(base_delay * exponential_base ^ 0, max_delay) = 1`. -/
theorem c2_rate_limit_delay_counterexample :
    (paymentRetry 1 1 2 30
        (fun _ => AttemptResult.raiseRetryable 7 true 30) : RetryTrace Nat).delays
        = [30] ∧
    min ((1 : ℚ) * 2 ^ (0 : Nat)) 30 = 1 ∧ ((30 : ℚ)) ≠ 1 := by
  refine ⟨by decide, by norm_num, by norm_num⟩

/-- C2 (amended): every wrapper invokes the wrapped function at most
`max_retries + 1` times; in resilient_api_client.py (and
payment_handlers.py, see `handlersGo_eq_resilientGo`) the delay slept after
failed attempt `k` is `min(base_delay * exponential_base ^ k, max_delay)`
scaled by the jitter factor `0.75 + 0.5 * r` (`r` the `random.random()`
draw, so the factor lies in `[0.75, 1.25)` for `r ∈ [0, 1)`) when jitter is
enabled; in payment_service.py there is no jitter and a
`StripeRateLimitError` sleeps `min(retry_after, max_delay)` instead of the
exponential delay; the un-jittered exponential delays are monotone up to
the cap when `base_delay ≥ 0` and `exponential_base ≥ 1`. -/
theorem c2_retry_backoff_attempts_and_delays {α : Type} (mr : Nat)
    (bd eb md : ℚ) (jit : Bool) (rnd : Nat → ℚ) (oc : Nat → AttemptResult α) :
    (resilientRetry mr bd eb md jit rnd oc).invocations ≤ mr + 1 ∧
    (paymentRetry mr bd eb md oc).invocations ≤ mr + 1 ∧
    (resilientRetry mr bd eb md jit rnd oc).delays =
      (List.range ((resilientRetry mr bd eb md jit rnd oc).invocations - 1)).map
        (resilientDelay bd eb md jit rnd) ∧
    (paymentRetry mr bd eb md oc).delays =
      (List.range ((paymentRetry mr bd eb md oc).invocations - 1)).map
        (paymentDelay bd eb md oc) ∧
    (∀ k, resilientDelay bd eb md true rnd k =
      min (bd * eb ^ k) md * (0.75 + rnd k * 0.5)) ∧
    (∀ r : ℚ, 0 ≤ r → r < 1 →
      (0.75 : ℚ) ≤ 0.75 + r * 0.5 ∧ (0.75 : ℚ) + r * 0.5 < 1.25) ∧
    (0 ≤ bd → 1 ≤ eb → ∀ j k : Nat, j ≤ k →
      min (bd * eb ^ j) md ≤ min (bd * eb ^ k) md) := by
  obtain ⟨r1, r2, r3, r4⟩ :=
    resilientGo_spec mr bd eb md jit rnd oc (mr + 1) 0 0 (by omega)
  obtain ⟨p1, p2, p3, p4⟩ :=
    paymentGo_spec mr bd eb md oc (mr + 1) 0 0 false 0 (by omega)
  refine ⟨r2, p2, ?_, ?_, fun k => by simp [resilientDelay], ?_, ?_⟩
  · simpa [resilientRetry, List.range_eq_range'] using r4
  · simpa [paymentRetry, List.range_eq_range'] using p4
  · intro r hr0 hr1
    constructor <;> nlinarith
  · intro hbd heb j k hjk
    have : eb ^ j ≤ eb ^ k := pow_le_pow_right₀ heb hjk
    exact min_le_min (by nlinarith) le_rfl

/-- Witness for C2 (amended) at concrete configuration and outcomes. -/
theorem c2_retry_backoff_attempts_and_delays_witness :
    (resilientRetry 1 1 2 60 true (fun _ => 1/2)
        (fun _ => AttemptResult.raiseRetryable 3 false 0) : RetryTrace Nat).invocations
      ≤ 2 ∧
    ((0.75 : ℚ) ≤ 0.75 + (1/2 : ℚ) * 0.5 ∧ (0.75 : ℚ) + (1/2 : ℚ) * 0.5 < 1.25) ∧
    min ((1 : ℚ) * 2 ^ (0 : Nat)) 60 ≤ min ((1 : ℚ) * 2 ^ (1 : Nat)) 60 :=
  ⟨(c2_retry_backoff_attempts_and_delays 1 1 2 60 true (fun _ => 1/2)
      (fun _ => AttemptResult.raiseRetryable 3 false 0)).1,
   (c2_retry_backoff_attempts_and_delays 1 1 2 60 true (fun _ => 1/2)
      (fun _ => (AttemptResult.raiseRetryable 3 false 0 : AttemptResult Nat))).2.2.2.2.2.1
      (1/2) (by norm_num) (by norm_num),
   (c2_retry_backoff_attempts_and_delays 1 1 2 60 true (fun _ => 1/2)
      (fun _ => (AttemptResult.raiseRetryable 3 false 0 : AttemptResult Nat))).2.2.2.2.2.2
      (by norm_num) (by norm_num) 0 1 (by norm_num)⟩

/-- C3 as stated is false: with the same configuration
(`max_retries = 0`, `base_delay = 1`, `exponential_base = 2`,
`max_delay = 30`) and the same outcome sequence (every invocation raises
retryable exception 3), payment_service.py's wrapper re-raises that
exception itself while resilient_api_client.py's raises
`MaxRetriesExceededError`; and for a rate-limit exception with
`retry_after = 30` under `max_retries = 1`, `max_delay = 60`,
payment_service.py sleeps 30 where resilient_api_client.py (jitter off)
sleeps 1. -/
theorem c3_not_equivalent_counterexample :
    (paymentRetry 0 1 2 30
        (fun _ => AttemptResult.raiseRetryable 3 false 0) : RetryTrace Nat).outcome ≠
      (resilientRetry 0 1 2 30 true (fun _ => 0)
        (fun _ => AttemptResult.raiseRetryable 3 false 0) : RetryTrace Nat).outcome ∧
    (paymentRetry 1 1 2 60
        (fun _ => AttemptResult.raiseRetryable 7 true 30) : RetryTrace Nat).delays
      = [30] ∧
    (resilientRetry 1 1 2 60 false (fun _ => 0)
        (fun _ => AttemptResult.raiseRetryable 7 true 30) : RetryTrace Nat).delays
      = [1] := by
  refine ⟨by decide, by decide, ?_⟩
  norm_num [resilientRetry, resilientGo, min_def]

/-- C3 (amended): the resilient_api_client.py and payment_handlers.py
`retry_with_backoff` wrappers are behaviourally equivalent (same
invocations, same delays, same outcome for every configuration and outcome
sequence); payment_service.py's wrapper performs the same number of
invocations but differs in delays and in the exception raised on
exhaustion. -/
theorem c3_handlers_equals_resilient {α : Type} (mr : Nat) (bd eb md : ℚ)
    (jit : Bool) (rnd : Nat → ℚ) (oc : Nat → AttemptResult α) :
    handlersRetry mr bd eb md jit rnd oc = resilientRetry mr bd eb md jit rnd oc ∧
    (paymentRetry mr bd eb md oc).invocations =
      (resilientRetry mr bd eb md jit rnd oc).invocations :=
  ⟨handlersGo_eq_resilientGo mr bd eb md jit rnd oc (mr + 1) 0 0,
   paymentGo_invocations_eq mr bd eb md jit rnd oc (mr + 1) 0 0 false 0 0⟩

/-- C6: for resilient_api_client.py's wrapper, if every invocation raises a
retryable exception the wrapper finishes with `MaxRetriesExceededError`
chained from the exception of the last attempt after exactly
`max_retries + 1` invocations; and if the first non-retryable exception
occurs at attempt `j` (all earlier attempts retryable), it propagates
immediately after exactly `j + 1` invocations. -/
theorem c6_resilient_retry_error_handling {α : Type} (mr : Nat) (bd eb md : ℚ)
    (jit : Bool) (rnd : Nat → ℚ) (oc : Nat → AttemptResult α) :
    ((∀ k, k ≤ mr → ∃ i rl ra, oc k = .raiseRetryable i rl ra) →
       ∃ i rl ra, oc mr = .raiseRetryable i rl ra ∧
         (resilientRetry mr bd eb md jit rnd oc).outcome = .maxRetriesExceeded i ∧
         (resilientRetry mr bd eb md jit rnd oc).invocations = mr + 1) ∧
    (∀ j i, j ≤ mr →
       (∀ k, k < j → ∃ i' rl ra, oc k = .raiseRetryable i' rl ra) →
       oc j = .raiseOther i →
       (resilientRetry mr bd eb md jit rnd oc).outcome = .propagated i ∧
       (resilientRetry mr bd eb md jit rnd oc).invocations = j + 1) := by
  constructor
  · intro hoc
    exact resilientGo_exhaust mr bd eb md jit rnd oc (mr + 1) 0 0 (by omega)
      (by omega) (fun k _ hk2 => hoc k hk2)
  · intro j i hj hpre hj2
    exact resilientGo_propagate mr bd eb md jit rnd oc (mr + 1) 0 0 j i (by omega)
      (by omega) hj (fun k _ hk2 => hpre k hk2) hj2

/-- Witness for C6 at a concrete configuration. -/
theorem c6_resilient_retry_error_handling_witness :
    (∃ i rl ra,
      (fun _ => (AttemptResult.raiseRetryable 5 false 0 : AttemptResult Nat)) 1
          = AttemptResult.raiseRetryable i rl ra ∧
      (resilientRetry 1 1 2 60 true (fun _ => 0)
          (fun _ => (AttemptResult.raiseRetryable 5 false 0 : AttemptResult Nat))).outcome
        = RetryOutcome.maxRetriesExceeded i ∧
      (resilientRetry 1 1 2 60 true (fun _ => 0)
          (fun _ => (AttemptResult.raiseRetryable 5 false 0 : AttemptResult Nat))).invocations
        = 2) :=
  (c6_resilient_retry_error_handling 1 1 2 60 true (fun _ => 0)
      (fun _ => (AttemptResult.raiseRetryable 5 false 0 : AttemptResult Nat))).1
    (fun k _ => ⟨5, false, 0, rfl⟩)

/-! ## Payment service (payment_service.py)

`Decimal` amounts are modelled as `ℚ`, the in-memory repositories as
association lists threaded through `process_payment` as explicit state, and
the generated UUIDs / idempotency hash and the mock Stripe behaviour as
oracles.  Wall-clock timestamp fields (`created_at`) and log output are
omitted: no claim mentions them.  The repository mocks are plain dictionary
updates that cannot raise, so the partial-failure handlers guarding
`transaction_repo.update` and `user_repo.update_balance` are dead code and
the reconciliation queue is never written. -/

/-- `dict.get` on an association list. -/
def dictGet {β : Type} (l : List (String × β)) (k : String) : Option β :=
  (l.find? (fun p => p.1 = k)).map (fun p => p.2)

/-- `dict[k] = v` on an association list (replace or insert). -/
def dictSet {β : Type} (l : List (String × β)) (k : String) (v : β) :
    List (String × β) :=
  (k, v) :: l.filter (fun p => ¬ p.1 = k)

/-- `dict.get` keyed by user id. -/
def dictGetI {β : Type} (l : List (Int × β)) (k : Int) : Option β :=
  (l.find? (fun p => p.1 = k)).map (fun p => p.2)

/-- `TransactionStatus` enum. -/
inductive TransactionStatus where
  | PENDING
  | COMPLETED
  | FAILED
  | REFUNDED
deriving DecidableEq, Repr

/-- The `User` dataclass. -/
structure User where
  id : Int
  email : String
  balance : ℚ
  default_card_id : Option String := none
deriving DecidableEq, Repr

/-- `User.has_valid_card`. -/
def User.has_valid_card (u : User) : Bool :=
  u.default_card_id.isSome

/-- The `Transaction` dataclass (without the `created_at` timestamp). -/
structure Transaction where
  id : String
  user_id : Int
  amount : ℚ
  currency : String
  status : TransactionStatus
  stripe_charge_id : Option String := none
  idempotency_key : String := ""
  error_message : Option String := none
deriving DecidableEq, Repr

/-- The `PaymentRequest` dataclass. -/
structure PaymentRequest where
  user_id : Int
  amount : ℚ
  currency : String := "usd"
  description : Option String := none
  idempotency_key : Option String := none
deriving DecidableEq, Repr

/-- The mutable contents of `UserRepository`, `TransactionRepository`
(backing dict plus idempotency index) and `ReconciliationQueue`. -/
structure PaymentState where
  users : List (Int × User)
  transactions : List (String × Transaction)
  idempotency_index : List (String × String)
  reconciliation_queue : List String
deriving DecidableEq, Repr

/-- `UserRepository.get_by_id`. -/
def get_user_by_id (st : PaymentState) (uid : Int) : Option User :=
  dictGetI st.users uid

/-- `UserRepository.update_balance` (no-op for an unknown user id). -/
def update_balance (st : PaymentState) (uid : Int) (nb : ℚ) : PaymentState :=
  { st with users := st.users.map (fun p => if p.1 = uid then (p.1, { p.2 with balance := nb }) else p) }

/-- `TransactionRepository.create`: store the transaction and, when its
idempotency key is non-empty (truthy), index it. -/
def tx_create (st : PaymentState) (t : Transaction) : PaymentState :=
  { st with
    transactions := dictSet st.transactions t.id t,
    idempotency_index :=
      if t.idempotency_key = "" then st.idempotency_index
      else dictSet st.idempotency_index t.idempotency_key t.id }

/-- `TransactionRepository.get_by_idempotency_key`: look up the transaction
id in the index and then the transaction (a falsy — empty — stored id
yields `None`). -/
def get_by_idempotency_key (st : PaymentState) (key : String) : Option Transaction :=
  match dictGet st.idempotency_index key with
  | some txid => if txid = "" then none else dictGet st.transactions txid
  | none => none

/-- `TransactionRepository.update`. -/
def tx_update (st : PaymentState) (t : Transaction) : PaymentState :=
  { st with transactions := dictSet st.transactions t.id t }

/-- Outcome of one `MockStripeClient.create_charge` call: raise
`StripeTimeoutError`, raise `StripeRateLimitError(retry_after)`, return a
declined-charge dict, or return a succeeded-charge dict. -/
inductive StripeResult where
  | timeout
  | rateLimit (retry_after : ℚ)
  | declined (failure_code failure_message : String)
  | succeeded (charge_id : String)
deriving DecidableEq, Repr

/-- The dict returned by `create_charge` when it does not raise. -/
inductive StripeResponse where
  | failedResp (failure_code failure_message : String)
  | okResp (charge_id : String)
deriving DecidableEq, Repr

/-- One attempt of `_call_stripe_with_retry`'s wrapped body, classified for
the retry decorator: `StripeTimeoutError` and `StripeRateLimitError` are
the configured `retryable_exceptions` (ids 0 and 1). -/
def stripeAttempt (stripe : Nat → StripeResult) (k : Nat) :
    AttemptResult StripeResponse :=
  match stripe k with
  | .timeout => .raiseRetryable 0 false 0
  | .rateLimit ra => .raiseRetryable 1 true ra
  | .declined c m => .ok (.failedResp c m)
  | .succeeded cid => .ok (.okResp cid)

/-- `_call_stripe_with_retry`: payment_service.py's `retry_with_backoff`
with `max_retries=3, base_delay=1.0, max_delay=30.0` around
`stripe.create_charge`. -/
def call_stripe_with_retry (stripe : Nat → StripeResult) :
    RetryTrace StripeResponse :=
  paymentRetry 3 1 2 30 (stripeAttempt stripe)

/-- The `BaseAPIError` subclasses with their constructor-fixed payloads. -/
inductive APIErr where
  | validationError (f : Option String)
  | paymentDeclined (decline_code message : String)
  | duplicatePayment (original_transaction_id : String)
  | serviceUnavailable (retry_after : Option Nat)
  | partialFailure (stripe_charge_id failure_reason : String)
deriving DecidableEq, Repr

/-- `status_code` fixed by each subclass constructor. -/
def APIErr.status_code : APIErr → Nat
  | .validationError _ => 400
  | .paymentDeclined _ _ => 402
  | .duplicatePayment _ => 409
  | .serviceUnavailable _ => 503
  | .partialFailure _ _ => 500

/-- The `code` field of `to_response()` fixed by each subclass. -/
def APIErr.code : APIErr → String
  | .validationError _ => "VALIDATION_ERROR"
  | .paymentDeclined _ _ => "PAYMENT_DECLINED"
  | .duplicatePayment _ => "DUPLICATE_PAYMENT"
  | .serviceUnavailable _ => "SERVICE_UNAVAILABLE"
  | .partialFailure _ _ => "PARTIAL_FAILURE"

/-- The value returned by a normal return of `process_payment`: the success
dict, or the existing pending transaction echoed back. -/
inductive PaymentResponse where
  | successResp (transaction : Transaction)
  | pendingExisting (transaction : Transaction)
deriving DecidableEq, Repr

/-- Oracles for `process_payment`: the generated idempotency key
(`_generate_idempotency_key`), the generated transaction id, and the mock
Stripe behaviour per attempt. -/
structure PaymentOracles where
  gen_key : String
  txn_id : String
  stripe : Nat → StripeResult

/-- `request.idempotency_key or self._generate_idempotency_key(request)`
(an empty provided key is falsy and falls back to the generated one). -/
def effective_key (r : PaymentRequest) (gen_key : String) : String :=
  match r.idempotency_key with
  | some k => if k = "" then gen_key else k
  | none => gen_key

/-- Steps 3–9 of `PaymentService.process_payment` (everything after the
duplicate check): user and card validation, creation of the pending
transaction, the Stripe call with retry, and the handling of its result.
Split out because the FAILED / REFUNDED duplicate-check branches fall
through to this code exactly like the no-duplicate branch. -/
def process_payment_rest (st : PaymentState) (r : PaymentRequest)
    (orc : PaymentOracles) (idempotency_key : String) :
    Except APIErr PaymentResponse × PaymentState :=
  -- Step 3: user and card validation
  match get_user_by_id st r.user_id with
  | none => (.error (.validationError (some "user_id")), st)
  | some user =>
    if ¬ user.has_valid_card then
      (.error (.validationError (some "payment_method")), st)
    else
      -- Step 4: create pending transaction
      let transaction : Transaction :=
        { id := orc.txn_id, user_id := user.id, amount := r.amount,
          currency := r.currency, status := .PENDING,
          idempotency_key := idempotency_key }
      let st1 := tx_create st transaction
      -- Step 5: call Stripe with retry
      match (call_stripe_with_retry orc.stripe).outcome with
      | .success (.failedResp fcode fmsg) =>
        -- Step 6: declined charge
        let transaction := { transaction with
          status := .FAILED, error_message := some fmsg }
        (.error (.paymentDeclined fcode fmsg), tx_update st1 transaction)
      | .success (.okResp charge_id) =>
        -- Step 7: completed charge
        let transaction := { transaction with
          stripe_charge_id := some charge_id, status := .COMPLETED }
        let st2 := tx_update st1 transaction
        -- Step 8: update the balance (the mock repository cannot fail, so
        -- the partial-failure reconciliation branches are unreachable)
        let st3 := update_balance st2 user.id (user.balance + r.amount)
        (.ok (.successResp transaction), st3)
      | _ =>
        -- all retries exhausted: the re-raised StripeTimeoutError /
        -- StripeRateLimitError is caught and mapped (error_message is str(e))
        let transaction := { transaction with
          status := .FAILED, error_message := some "stripe unavailable" }
        (.error (.serviceUnavailable (some 60)), tx_update st1 transaction)

/-- `PaymentService.process_payment`, returning the raised `BaseAPIError`
or the returned dict, together with the repository state after the call. -/
def process_payment (st : PaymentState) (r : PaymentRequest)
    (orc : PaymentOracles) : Except APIErr PaymentResponse × PaymentState :=
  -- Step 1: _validate_request
  if r.amount ≤ 0 then
    (.error (.validationError (some "amount")), st)
  else if (10000 : ℚ) < r.amount then
    (.error (.validationError (some "amount")), st)
  else if ¬ (r.currency = "usd" ∨ r.currency = "eur" ∨ r.currency = "gbp") then
    (.error (.validationError (some "currency")), st)
  else
    -- Step 2: duplicate check (idempotency)
    let idempotency_key := effective_key r orc.gen_key
    match get_by_idempotency_key st idempotency_key with
    | some existing =>
      if existing.status = .COMPLETED then
        (.error (.duplicatePayment existing.id), st)
      else if existing.status = .PENDING then
        (.ok (.pendingExisting existing), st)
      else
        process_payment_rest st r orc idempotency_key
    | none => process_payment_rest st r orc idempotency_key

/-- The parsed request body handed to `handle_post_payments`: either the
parse raised (bad `Decimal` etc.) or it produced a `PaymentRequest`. -/
inductive ParsedBody where
  | malformed
  | parsed (r : PaymentRequest)
deriving DecidableEq, Repr

/-- The response dict of `handle_post_payments`: a success payload, an
error's `to_response()` dict, or the catch-all
`{"error": {"code": "INTERNAL_ERROR", ...}}`. -/
inductive ResponseBody where
  | success (r : PaymentResponse)
  | apiError (e : APIErr)
  | internalError
deriving DecidableEq, Repr

/-- `handle_post_payments`: POST /payments endpoint handler returning
`(response_dict, status_code)` plus the repository state. -/
def handle_post_payments (pb : ParsedBody) (st : PaymentState)
    (orc : PaymentOracles) : ResponseBody × Nat × PaymentState :=
  match pb with
  | .malformed => (.internalError, 500, st)
  | .parsed r =>
    match process_payment st r orc with
    | (.ok res, st') => (.success res, 200, st')
    | (.error e, st') => (.apiError e, e.status_code, st')

theorem APIErr.status_code_ne_200 (e : APIErr) : e.status_code ≠ 200 := by
  cases e <;> simp [APIErr.status_code]

/-- C4: `handle_post_payments` returns status 200 exactly when
`process_payment` returns normally; a raised `BaseAPIError` is returned as
its `to_response()` dict together with its `status_code` (400 for
`ValidationError`, 402 for `PaymentDeclinedError`, 409 for
`DuplicatePaymentError`, 503 for `PaymentServiceUnavailableError`, 500 for
`PartialFailureError`); any other exception (e.g. a failing request parse)
yields status 500 with error code `INTERNAL_ERROR`. -/
theorem c4_handle_post_payments_status_codes (pb : ParsedBody)
    (st : PaymentState) (orc : PaymentOracles) :
    ((handle_post_payments pb st orc).2.1 = 200 ↔
      ∃ r res st', pb = .parsed r ∧
        process_payment st r orc = (.ok res, st')) ∧
    (∀ r e st', pb = .parsed r → process_payment st r orc = (.error e, st') →
      handle_post_payments pb st orc = (.apiError e, e.status_code, st')) ∧
    (handle_post_payments .malformed st orc = (.internalError, 500, st)) ∧
    (∀ f, (APIErr.validationError f).status_code = 400) ∧
    (∀ c m, (APIErr.paymentDeclined c m).status_code = 402) ∧
    (∀ i, (APIErr.duplicatePayment i).status_code = 409) ∧
    (∀ ra, (APIErr.serviceUnavailable ra).status_code = 503) ∧
    (∀ cid rsn, (APIErr.partialFailure cid rsn).status_code = 500) := by
  refine ⟨?_, ?_, rfl, fun _ => rfl, fun _ _ => rfl, fun _ => rfl,
    fun _ => rfl, fun _ _ => rfl⟩
  · cases pb with
    | malformed =>
      simp [handle_post_payments]
    | parsed r =>
      cases hp : process_payment st r orc with
      | mk res st' =>
        cases res with
        | ok v =>
          simp only [handle_post_payments, hp]
          exact ⟨fun _ => ⟨r, v, st', rfl, hp⟩, fun _ => by simp⟩
        | error e =>
          simp only [handle_post_payments, hp]
          constructor
          · intro h
            exact absurd h (APIErr.status_code_ne_200 e)
          · rintro ⟨r', v, st'', hr, hp'⟩
            cases hr
            rw [hp] at hp'
            simp at hp'
  · intro r e st' hpb hp
    cases hpb
    simp [handle_post_payments, hp]

/-- Witness for C4 at a concrete request that fails validation. -/
theorem c4_handle_post_payments_status_codes_witness :
    handle_post_payments
        (.parsed ⟨1, -5, "usd", none, none⟩)
        ⟨[], [], [], []⟩ ⟨"g", "t1", fun _ => .timeout⟩
      = (.apiError (.validationError (some "amount")),
         (APIErr.validationError (some "amount")).status_code,
         ⟨[], [], [], []⟩) :=
  (c4_handle_post_payments_status_codes
      (.parsed ⟨1, -5, "usd", none, none⟩)
      ⟨[], [], [], []⟩ ⟨"g", "t1", fun _ => .timeout⟩).2.1
    ⟨1, -5, "usd", none, none⟩ (.validationError (some "amount"))
    ⟨[], [], [], []⟩ rfl rfl

theorem process_payment_rest_user_validation (st : PaymentState)
    (r : PaymentRequest) (orc : PaymentOracles) (key : String)
    (h : get_user_by_id st r.user_id = none ∨
      ∃ u, get_user_by_id st r.user_id = some u ∧ u.has_valid_card = false) :
    ∃ f, process_payment_rest st r orc key = (.error (.validationError f), st) := by
  rcases h with h | ⟨u, hu, hcard⟩
  · exact ⟨some "user_id", by simp [process_payment_rest, h]⟩
  · exact ⟨some "payment_method", by simp [process_payment_rest, hu, hcard]⟩

/-- C5 as stated is false: with a stored COMPLETED transaction `txn_1`
indexed under idempotency key `"k"`, a request for the unknown user 999
carrying key `"k"` raises `DuplicatePaymentError`, not `ValidationError`
(the duplicate check runs before the user lookup).  The state is unchanged
either way. -/
theorem c5_duplicate_before_user_check_counterexample :
    process_payment
        ⟨[], [("txn_1", ⟨"txn_1", 1, 50, "usd", .COMPLETED, some "ch0", "k", none⟩)],
         [("k", "txn_1")], []⟩
        ⟨999, 50, "usd", none, some "k"⟩ ⟨"g", "t1", fun _ => .timeout⟩
      = (.error (.duplicatePayment "txn_1"),
         ⟨[], [("txn_1", ⟨"txn_1", 1, 50, "usd", .COMPLETED, some "ch0", "k", none⟩)],
          [("k", "txn_1")], []⟩) ∧
    get_user_by_id
        ⟨[], [("txn_1", ⟨"txn_1", 1, 50, "usd", .COMPLETED, some "ch0", "k", none⟩)],
         [("k", "txn_1")], []⟩ 999 = none ∧
    ¬ ∃ f, (process_payment
        ⟨[], [("txn_1", ⟨"txn_1", 1, 50, "usd", .COMPLETED, some "ch0", "k", none⟩)],
         [("k", "txn_1")], []⟩
        ⟨999, 50, "usd", none, some "k"⟩ ⟨"g", "t1", fun _ => .timeout⟩).1
      = .error (.validationError f) := by
  refine ⟨rfl, rfl, ?_⟩
  rintro ⟨f, hf⟩
  simp [show (process_payment
      ⟨[], [("txn_1", ⟨"txn_1", 1, 50, "usd", .COMPLETED, some "ch0", "k", none⟩)],
       [("k", "txn_1")], []⟩
      ⟨999, 50, "usd", none, some "k"⟩ ⟨"g", "t1", fun _ => .timeout⟩).1
    = .error (.duplicatePayment "txn_1") from rfl] at hf

/-- C5 (amended): a request failing the amount or currency checks always
raises `ValidationError` with the state unchanged; a request passing them
whose user is missing or has no default card also raises `ValidationError`
with the state unchanged, provided its (provided-or-generated) idempotency
key does not map to a stored COMPLETED or PENDING transaction — a COMPLETED
match raises `DuplicatePaymentError` and a PENDING match returns the stored
transaction first, also without writes. -/
theorem c5_validation_errors_leave_state_unchanged (st : PaymentState)
    (r : PaymentRequest) (orc : PaymentOracles) :
    ((r.amount ≤ 0 ∨ (10000 : ℚ) < r.amount ∨
        ¬ (r.currency = "usd" ∨ r.currency = "eur" ∨ r.currency = "gbp")) →
      ∃ f, process_payment st r orc = (.error (.validationError f), st)) ∧
    (0 < r.amount → r.amount ≤ 10000 →
      (r.currency = "usd" ∨ r.currency = "eur" ∨ r.currency = "gbp") →
      (∀ ex, get_by_idempotency_key st (effective_key r orc.gen_key) = some ex →
        ex.status ≠ .COMPLETED ∧ ex.status ≠ .PENDING) →
      (get_user_by_id st r.user_id = none ∨
        ∃ u, get_user_by_id st r.user_id = some u ∧ u.has_valid_card = false) →
      ∃ f, process_payment st r orc = (.error (.validationError f), st)) := by
  constructor
  · rintro (h | h | h)
    · exact ⟨some "amount", by simp [process_payment, h]⟩
    · have h0 : ¬ r.amount ≤ 0 := by linarith
      exact ⟨some "amount", by simp [process_payment, h0, h]⟩
    · by_cases h1 : r.amount ≤ 0
      · exact ⟨some "amount", by simp [process_payment, h1]⟩
      · by_cases h2 : (10000 : ℚ) < r.amount
        · exact ⟨some "amount", by simp [process_payment, h1, h2]⟩
        · exact ⟨some "currency", by simp [process_payment, h1, h2, h]⟩
  · intro ha1 ha2 hc hdup huser
    have h1 : ¬ r.amount ≤ 0 := by linarith
    have h2 : ¬ (10000 : ℚ) < r.amount := by linarith
    have hc' : ¬¬ (r.currency = "usd" ∨ r.currency = "eur" ∨ r.currency = "gbp") :=
      not_not_intro hc
    obtain ⟨f, hf⟩ := process_payment_rest_user_validation st r orc
      (effective_key r orc.gen_key) huser
    refine ⟨f, ?_⟩
    simp only [process_payment, if_neg h1, if_neg h2, if_neg hc']
    cases hd : get_by_idempotency_key st (effective_key r orc.gen_key) with
    | none => exact hf
    | some ex =>
      obtain ⟨hnc, hnp⟩ := hdup ex hd
      simp only [if_neg hnc, if_neg hnp]
      exact hf

/-- Witness for C5 (amended) at concrete requests: an invalid amount, and a
missing user with an empty repository. -/
theorem c5_validation_errors_leave_state_unchanged_witness :
    (∃ f, process_payment ⟨[], [], [], []⟩ ⟨1, -5, "usd", none, none⟩
        ⟨"g", "t1", fun _ => .timeout⟩
      = (.error (.validationError f), ⟨[], [], [], []⟩)) ∧
    (∃ f, process_payment ⟨[], [], [], []⟩ ⟨1, 50, "usd", none, none⟩
        ⟨"g", "t1", fun _ => .timeout⟩
      = (.error (.validationError f), ⟨[], [], [], []⟩)) :=
  ⟨(c5_validation_errors_leave_state_unchanged ⟨[], [], [], []⟩
      ⟨1, -5, "usd", none, none⟩ ⟨"g", "t1", fun _ => .timeout⟩).1
      (Or.inl (by norm_num)),
   (c5_validation_errors_leave_state_unchanged ⟨[], [], [], []⟩
      ⟨1, 50, "usd", none, none⟩ ⟨"g", "t1", fun _ => .timeout⟩).2
      (by norm_num) (by norm_num) (Or.inl rfl)
      (fun ex hex => by simp [get_by_idempotency_key, dictGet] at hex)
      (Or.inl rfl)⟩

/-- C7 as stated is false: a `PaymentRequest` whose idempotency key maps to
a stored COMPLETED transaction but whose amount is invalid raises
`ValidationError`, not `DuplicatePaymentError` (validation runs before the
duplicate check). -/
theorem c7_validation_before_duplicate_counterexample :
    process_payment
        ⟨[], [("txn_1", ⟨"txn_1", 1, 50, "usd", .COMPLETED, some "ch0", "k", none⟩)],
         [("k", "txn_1")], []⟩
        ⟨1, -5, "usd", none, some "k"⟩ ⟨"g", "t1", fun _ => .timeout⟩
      = (.error (.validationError (some "amount")),
         ⟨[], [("txn_1", ⟨"txn_1", 1, 50, "usd", .COMPLETED, some "ch0", "k", none⟩)],
          [("k", "txn_1")], []⟩) ∧
    get_by_idempotency_key
        ⟨[], [("txn_1", ⟨"txn_1", 1, 50, "usd", .COMPLETED, some "ch0", "k", none⟩)],
         [("k", "txn_1")], []⟩ "k"
      = some ⟨"txn_1", 1, 50, "usd", .COMPLETED, some "ch0", "k", none⟩ ∧
    (process_payment
        ⟨[], [("txn_1", ⟨"txn_1", 1, 50, "usd", .COMPLETED, some "ch0", "k", none⟩)],
         [("k", "txn_1")], []⟩
        ⟨1, -5, "usd", none, some "k"⟩ ⟨"g", "t1", fun _ => .timeout⟩).1
      ≠ .error (.duplicatePayment "txn_1") := by
  refine ⟨rfl, rfl, ?_⟩
  intro h
  simp [show (process_payment
      ⟨[], [("txn_1", ⟨"txn_1", 1, 50, "usd", .COMPLETED, some "ch0", "k", none⟩)],
       [("k", "txn_1")], []⟩
      ⟨1, -5, "usd", none, some "k"⟩ ⟨"g", "t1", fun _ => .timeout⟩).1
    = .error (.validationError (some "amount")) from rfl] at h

/-- C7 (amended): for a request passing the amount/currency validation
whose (provided-or-generated) idempotency key maps to a stored transaction:
a COMPLETED match raises `DuplicatePaymentError` carrying the original
transaction id and leaves the state unchanged; a PENDING match returns that
transaction with status "pending" and leaves the state unchanged — in both
cases for every Stripe oracle and generated transaction id, i.e. without
calling Stripe and without creating a transaction. -/
theorem c7_idempotency_duplicate_handling (st : PaymentState)
    (r : PaymentRequest) (gk tid : String) (stripe : Nat → StripeResult)
    (ex : Transaction)
    (h1 : 0 < r.amount) (h2 : r.amount ≤ 10000)
    (h3 : r.currency = "usd" ∨ r.currency = "eur" ∨ r.currency = "gbp")
    (hex : get_by_idempotency_key st (effective_key r gk) = some ex) :
    (ex.status = .COMPLETED →
      process_payment st r ⟨gk, tid, stripe⟩
        = (.error (.duplicatePayment ex.id), st)) ∧
    (ex.status = .PENDING →
      process_payment st r ⟨gk, tid, stripe⟩
        = (.ok (.pendingExisting ex), st)) := by
  have h1' : ¬ r.amount ≤ 0 := by linarith
  have h2' : ¬ (10000 : ℚ) < r.amount := by linarith
  have h3' : ¬¬ (r.currency = "usd" ∨ r.currency = "eur" ∨ r.currency = "gbp") :=
    not_not_intro h3
  constructor <;> intro hs <;>
    simp [process_payment, h1', h2', h3', hex, hs]

/-- Witness for C7 (amended) at a concrete stored PENDING transaction. -/
theorem c7_idempotency_duplicate_handling_witness :
    process_payment
        ⟨[], [("txn_9", ⟨"txn_9", 2, 75, "eur", .PENDING, none, "kp", none⟩)],
         [("kp", "txn_9")], []⟩
        ⟨2, 75, "eur", none, some "kp"⟩ ⟨"g", "t1", fun _ => .timeout⟩
      = (.ok (.pendingExisting ⟨"txn_9", 2, 75, "eur", .PENDING, none, "kp", none⟩),
         ⟨[], [("txn_9", ⟨"txn_9", 2, 75, "eur", .PENDING, none, "kp", none⟩)],
          [("kp", "txn_9")], []⟩) :=
  (c7_idempotency_duplicate_handling
      ⟨[], [("txn_9", ⟨"txn_9", 2, 75, "eur", .PENDING, none, "kp", none⟩)],
       [("kp", "txn_9")], []⟩
      ⟨2, 75, "eur", none, some "kp"⟩ "g" "t1" (fun _ => .timeout)
      ⟨"txn_9", 2, 75, "eur", .PENDING, none, "kp", none⟩
      (by norm_num) (by norm_num) (Or.inr (Or.inl rfl)) rfl).2 rfl

/-! ## Async flow debugger (async_flow_debugger.py)

The static `ASYNC_FLOWS` inventory and the two lookup helpers
`find_writers` and `get_all_fields`, embedded with the literal table from
the file. -/

/-- `ScheduledTask` TypedDict. -/
structure ScheduledTask where
  name : String
  schedule : String
  touches : List String
deriving DecidableEq, Repr

/-- `EventHandler` TypedDict. -/
structure EventHandler where
  event : String
  handler : String
  touches : List String
deriving DecidableEq, Repr

/-- `BackgroundJob` TypedDict. -/
structure BackgroundJob where
  name : String
  queue : String
  touches : List String
deriving DecidableEq, Repr

/-- `AsyncFlows` TypedDict. -/
structure AsyncFlows where
  scheduled_tasks : List ScheduledTask
  event_handlers : List EventHandler
  background_jobs : List BackgroundJob
deriving DecidableEq, Repr

/-- The literal `ASYNC_FLOWS` inventory of async_flow_debugger.py. -/
def ASYNC_FLOWS : AsyncFlows :=
  { scheduled_tasks :=
      [⟨"nightly_reconciliation", "0 3 * * *", ["balance", "transactions"]⟩,
       ⟨"cleanup_old_sessions", "0 0 * * *", ["sessions"]⟩,
       ⟨"generate_reports", "0 6 * * 1", ["reports", "analytics"]⟩],
    event_handlers :=
      [⟨"payment.succeeded", "update_balance", ["balance", "audit_log"]⟩,
       ⟨"payment.failed", "log_failure", ["audit_log", "alerts"]⟩,
       ⟨"user.registered", "send_welcome_email", ["email_log", "user_preferences"]⟩],
    background_jobs :=
      [⟨"send_notification", "notifications", ["notification_log"]⟩,
       ⟨"process_refund", "payments", ["balance", "transactions", "audit_log"]⟩,
       ⟨"resize_image", "media", ["media_storage", "user_profile"]⟩] }

/-- The writer line formatted for a scheduled task. -/
def fmt_scheduled (t : ScheduledTask) : String :=
  "⏰ Scheduled: " ++ t.name ++ " (cron: " ++ t.schedule ++ ")"

/-- The writer line formatted for an event handler. -/
def fmt_event (h : EventHandler) : String :=
  "🔔 Event: " ++ h.event ++ " → " ++ h.handler

/-- The writer line formatted for a background job. -/
def fmt_job (j : BackgroundJob) : String :=
  "🔄 Job: " ++ j.name ++ " (queue: " ++ j.queue ++ ")"

/-- `find_writers(field)`: the three `for` loops appending a formatted line
for each flow whose `touches` list contains the field, in the order
scheduled tasks, then event handlers, then background jobs. -/
def find_writers (f : String) : List String :=
  let writers : List String := []
  let writers := ASYNC_FLOWS.scheduled_tasks.foldl
    (fun acc t => if f ∈ t.touches then acc ++ [fmt_scheduled t] else acc) writers
  let writers := ASYNC_FLOWS.event_handlers.foldl
    (fun acc h => if f ∈ h.touches then acc ++ [fmt_event h] else acc) writers
  ASYNC_FLOWS.background_jobs.foldl
    (fun acc j => if f ∈ j.touches then acc ++ [fmt_job j] else acc) writers

/-- `get_all_fields()`: the set of all fields touched by any flow
(`fields.update(...)` over the three flow lists). -/
def get_all_fields : Finset String :=
  let fields : Finset String := ∅
  let fields := ASYNC_FLOWS.scheduled_tasks.foldl
    (fun acc t => acc ∪ t.touches.toFinset) fields
  let fields := ASYNC_FLOWS.event_handlers.foldl
    (fun acc h => acc ∪ h.touches.toFinset) fields
  ASYNC_FLOWS.background_jobs.foldl
    (fun acc j => acc ∪ j.touches.toFinset) fields

theorem foldl_append_filter {β γ : Type} (P : β → Prop) [DecidablePred P]
    (g : β → γ) :
    ∀ (l : List β) (init : List γ),
      l.foldl (fun acc t => if P t then acc ++ [g t] else acc) init
        = init ++ (l.filter (fun t => decide (P t))).map g := by
  intro l
  induction l with
  | nil => intro init; simp
  | cons x xs ih =>
    intro init
    by_cases h : P x <;> simp [h, ih, List.filter_cons]

theorem mem_foldl_union {β : Type} (g : β → List String) :
    ∀ (l : List β) (init : Finset String) (f : String),
      (f ∈ l.foldl (fun acc t => acc ∪ (g t).toFinset) init ↔
        f ∈ init ∨ ∃ t, t ∈ l ∧ f ∈ g t) := by
  intro l
  induction l with
  | nil => intro init f; simp
  | cons x xs ih =>
    intro init f
    rw [List.foldl_cons, ih]
    simp only [Finset.mem_union, List.mem_toFinset, List.mem_cons]
    constructor
    · rintro ((h | h) | ⟨t, ht, hf⟩)
      · exact Or.inl h
      · exact Or.inr ⟨x, Or.inl rfl, h⟩
      · exact Or.inr ⟨t, Or.inr ht, hf⟩
    · rintro (h | ⟨t, (rfl | ht), hf⟩)
      · exact Or.inl (Or.inl h)
      · exact Or.inl (Or.inr hf)
      · exact Or.inr ⟨t, ht, hf⟩

theorem find_writers_eq_filters (f : String) :
    find_writers f
      = (ASYNC_FLOWS.scheduled_tasks.filter (fun t => decide (f ∈ t.touches))).map
          fmt_scheduled
        ++ (ASYNC_FLOWS.event_handlers.filter (fun h => decide (f ∈ h.touches))).map
          fmt_event
        ++ (ASYNC_FLOWS.background_jobs.filter (fun j => decide (f ∈ j.touches))).map
          fmt_job := by
  simp only [find_writers]
  rw [foldl_append_filter (fun t : ScheduledTask => f ∈ t.touches) fmt_scheduled,
    foldl_append_filter (fun h : EventHandler => f ∈ h.touches) fmt_event,
    foldl_append_filter (fun j : BackgroundJob => f ∈ j.touches) fmt_job]
  simp [List.append_assoc]

/-- C8: `find_writers(f)` is non-empty exactly when `f ∈ get_all_fields()`,
and it lists exactly one formatted entry for each flow whose `touches`
contains `f`, in the order scheduled tasks, then event handlers, then
background jobs. -/
theorem c8_find_writers_complete_and_ordered :
    (∀ f : String, find_writers f ≠ [] ↔ f ∈ get_all_fields) ∧
    (∀ f : String,
      find_writers f
        = (ASYNC_FLOWS.scheduled_tasks.filter (fun t => decide (f ∈ t.touches))).map
            fmt_scheduled
          ++ (ASYNC_FLOWS.event_handlers.filter (fun h => decide (f ∈ h.touches))).map
            fmt_event
          ++ (ASYNC_FLOWS.background_jobs.filter (fun j => decide (f ∈ j.touches))).map
            fmt_job) := by
  refine ⟨fun f => ?_, find_writers_eq_filters⟩
  rw [find_writers_eq_filters]
  simp only [get_all_fields]
  rw [mem_foldl_union (fun j : BackgroundJob => j.touches),
    mem_foldl_union (fun h : EventHandler => h.touches),
    mem_foldl_union (fun t : ScheduledTask => t.touches)]
  simp only [Finset.not_mem_empty, false_or]
  constructor
  · intro h
    by_contra hno
    push_neg at hno
    obtain ⟨⟨hs, he⟩, hj⟩ := hno
    apply h
    rw [List.append_eq_nil, List.append_eq_nil]
    refine ⟨⟨?_, ?_⟩, ?_⟩ <;>
      simp only [List.map_eq_nil_iff, List.filter_eq_nil_iff, decide_eq_true_eq] <;>
      assumption
  · intro h hmap
    rw [List.append_eq_nil, List.append_eq_nil] at hmap
    obtain ⟨⟨hs, he⟩, hj⟩ := hmap
    simp only [List.map_eq_nil_iff, List.filter_eq_nil_iff, decide_eq_true_eq]
      at hs he hj
    rcases h with (⟨t, ht, hf⟩ | ⟨hd, hh, hf⟩) | ⟨j, hjj, hf⟩
    · exact hs t ht hf
    · exact he hd hh hf
    · exact hj j hjj hf

/-- C9: the calculator prints the divide-by-zero error and no result line
when the operator is "/" and the second number is 0; prints the
unknown-operator error and no result line when the operator is not one of
"+", "-", "*", "/"; and otherwise prints exactly one result line carrying
the corresponding arithmetic result. -/
inductive CalcOutput where
  | divZeroError
  | unknownOpError (op : String)
  | resultLine (value : ℚ)
deriving DecidableEq, Repr

/-- calculator.py after the two numbers and the operator are read: the
`if/elif` chain on the operator, the zero check before division, and the
final result print; the returned list is the sequence of printed lines
(`exit()` stops the script, so error branches print nothing further). -/
def calculator (num1 num2 : ℚ) (op : String) : List CalcOutput :=
  if op = "+" then [.resultLine (num1 + num2)]
  else if op = "-" then [.resultLine (num1 - num2)]
  else if op = "*" then [.resultLine (num1 * num2)]
  else if op = "/" then
    if num2 = 0 then [.divZeroError]
    else [.resultLine (num1 / num2)]
  else [.unknownOpError op]

/-- C9: division by zero and unknown operators print exactly the error line
and no result; every other case prints exactly one result line with the
corresponding arithmetic value. -/
theorem c9_calculator_guards (num1 num2 : ℚ) (op : String) :
    (op = "/" → num2 = 0 → calculator num1 num2 op = [.divZeroError]) ∧
    (¬ (op = "+" ∨ op = "-" ∨ op = "*" ∨ op = "/") →
      calculator num1 num2 op = [.unknownOpError op]) ∧
    (op = "+" → calculator num1 num2 op = [.resultLine (num1 + num2)]) ∧
    (op = "-" → calculator num1 num2 op = [.resultLine (num1 - num2)]) ∧
    (op = "*" → calculator num1 num2 op = [.resultLine (num1 * num2)]) ∧
    (op = "/" → num2 ≠ 0 → calculator num1 num2 op = [.resultLine (num1 / num2)]) := by
  refine ⟨?_, ?_, ?_, ?_, ?_, ?_⟩
  · intro h hz
    subst h
    simp [calculator, hz]
  · intro h
    push_neg at h
    obtain ⟨h1, h2, h3, h4⟩ := h
    simp [calculator, h1, h2, h3, h4]
  · intro h; subst h; simp [calculator]
  · intro h; subst h; simp [calculator]
  · intro h; subst h; simp [calculator]
  · intro h hz
    subst h
    simp [calculator, hz]

/-- Witness for C9 at concrete inputs. -/
theorem c9_calculator_guards_witness :
    calculator 5 0 "/" = [.divZeroError] ∧
    calculator 1 2 "%" = [.unknownOpError "%"] ∧
    calculator 2 3 "+" = [.resultLine (2 + 3)] :=
  ⟨(c9_calculator_guards 5 0 "/").1 rfl rfl,
   (c9_calculator_guards 1 2 "%").2.1 (by simp),
   (c9_calculator_guards 2 3 "+").2.2.1 rfl⟩

end SweHackers

